import Mathlib

/-!
Shallow embedding of the `utoipa-validate` crates.

Sources embedded here:
* `src/utoipa-validate/src/lib.rs` — the runtime validation engine
  (`ValidationPath`, `ValidationError`, the primitive constraint validators,
  `OptionValidator`, `VecValidator`, `Validatable::validate_with`).
* `src/utoipa-validate-gen/src/lib.rs` — the `#[derive(Validatable)]`
  procedural macro (`create_checks`, `create_checks_for_field`,
  `create_checks_for_schema_attribute`, `is_option`, `generate_field_name`).

Conventions of the embedding:
* Rust validators mutate a `&mut Vec<ValidationError>` accumulator by pushing
  only; each validator is embedded as a function returning the list of errors
  it appends, so running validators in sequence is list concatenation.
* A Rust panic/abort is modelled by `Option`: a result of `none` means the
  call aborted, `some es` means it returned normally having appended `es`.
  Validators whose body contains no panicking operation are embedded as total
  functions into `List ValidationError`.
* Rust machine integers are embedded as unbounded `Int`; the one place where
  this matters (the `%` operator) is modelled explicitly.
* The external `regex` crate is modelled at its interface: a pattern source
  string, a parse predicate (`Regex::new` succeeding), and a match predicate
  (`Regex::is_match`, search-anywhere semantics).
-/

/-- Path to a value that is validated (enum `ValidationPath` in
`src/utoipa-validate/src/lib.rs`, lines 8-19). The Rust lifetimes only govern
borrowing; the data content is a parent-linked chain of segments. -/
inductive ValidationPath where
  | root
  | field (parent : ValidationPath) (name : String)
  | item (parent : ValidationPath) (index : Nat)
deriving DecidableEq, Repr

/-- Embedding of `impl Display for ValidationPath` (lines 21-37): `Root`
renders empty, `Field` under `Root` renders the bare name, `Item` under `Root`
renders `[index]`, otherwise the parent is rendered first, with a dot before a
field segment and nothing before an item segment. -/
def ValidationPath.render : ValidationPath → String
  | ValidationPath.root => ""
  | ValidationPath.field ValidationPath.root name => name
  | ValidationPath.field parent name => parent.render ++ "." ++ name
  | ValidationPath.item ValidationPath.root index => "[" ++ toString index ++ "]"
  | ValidationPath.item parent index => parent.render ++ "[" ++ toString index ++ "]"

/-- Category for validation errors (enum `ValidationErrorCategory`,
lines 41-59). The `Other` variant carries a display function pointer in Rust;
only its identifying tag is kept here (no claim concerns `Other`). -/
inductive ValidationErrorCategory where
  | exclusiveMaximum
  | exclusiveMinimum
  | maximum
  | minimum
  | maxItems
  | minItems
  | maxLength
  | minLength
  | multipleOf
  | pattern
  | other (tag : String)
deriving DecidableEq, Repr

/-- Struct describing an error during validation (struct `ValidationError`,
lines 61-72). All four members are plain data; `path`, `actual` and
`expected` are strings produced at the moment of failure. -/
structure ValidationError where
  category : ValidationErrorCategory
  path : String
  actual : String
  expected : String
deriving DecidableEq, Repr

/-- Rust's `Display` trait, at the interface the validators use
(`value.to_string()`). -/
class RustDisplay (T : Type) where
  display : T → String

/-- Rust's `PartialOrd` trait: `pcmp` embeds `partial_cmp`, which returns
`None` exactly when the two operands are unordered (for floating-point types:
when an operand is NaN). -/
class RustPOrd (T : Type) where
  pcmp : T → T → Option Ordering

/-- Rust's `a < b`, derived from `partial_cmp` as in the `PartialOrd`
provided method: true iff `partial_cmp` returns `Some(Less)`. -/
def rustLt {T : Type} [RustPOrd T] (a b : T) : Bool :=
  match RustPOrd.pcmp a b with
  | some Ordering.lt => true
  | _ => false

/-- Rust's `a <= b`: true iff `partial_cmp` returns `Some(Less | Equal)`. -/
def rustLe {T : Type} [RustPOrd T] (a b : T) : Bool :=
  match RustPOrd.pcmp a b with
  | some Ordering.lt => true
  | some Ordering.eq => true
  | _ => false

/-- Rust's `a > b`: true iff `partial_cmp` returns `Some(Greater)`. -/
def rustGt {T : Type} [RustPOrd T] (a b : T) : Bool :=
  match RustPOrd.pcmp a b with
  | some Ordering.gt => true
  | _ => false

/-- Rust's `a >= b`: true iff `partial_cmp` returns `Some(Greater | Equal)`. -/
def rustGe {T : Type} [RustPOrd T] (a b : T) : Bool :=
  match RustPOrd.pcmp a b with
  | some Ordering.gt => true
  | some Ordering.eq => true
  | _ => false

/-- Rust's `PartialEq` trait (`==` on the remainder in
`MultipleOfValidator::validate`). -/
class RustPEq (T : Type) where
  eqv : T → T → Bool

/-- Rust's `Default` trait (`T::default()` is the zero of every numeric
type). -/
class RustDefault (T : Type) where
  defaultValue : T

/-- Rust's `Rem` trait at the point of use `value % divisor`. The result is
`none` when the operation panics: for machine integers `%` aborts on a zero
divisor and, for signed types, on the overflowing `MIN % -1` (the operation
is a truncated remainder). -/
class RustRem (T : Type) where
  rem : T → T → Option T

/-- Integers are totally ordered: `partial_cmp` always returns `Some`,
with the ordering of the values. -/
instance : RustPOrd Int where
  pcmp a b :=
    some (if a < b then Ordering.lt else if a = b then Ordering.eq else Ordering.gt)

instance : RustDisplay Int where
  display n := toString n

instance : RustPEq Int where
  eqv a b := a == b

instance : RustDefault Int where
  defaultValue := 0

/-- Rust `%` on `i64` (the widest signed type the repository validates): a
truncated remainder that panics on a zero divisor and on the overflowing
`i64::MIN % -1`, where `i64::MIN = -9223372036854775808`. Narrower signed
widths panic at their own `MIN % -1` in the same way; values outside the
represented width do not arise from validated `i64` fields. -/
instance : RustRem Int where
  rem a b :=
    if b = 0 ∨ (a = -9223372036854775808 ∧ b = -1) then none
    else some (Int.tmod a b)

/-- Model of Rust `f64`/`f32` at the interface the bound validators use:
a value is either NaN or a finite value (modelled as a rational). IEEE
`partial_cmp` returns `None` exactly when an operand is NaN. -/
inductive F64 where
  | nan
  | fin (q : ℚ)
deriving DecidableEq

instance : RustPOrd F64 where
  pcmp a b :=
    match a, b with
    | F64.fin x, F64.fin y => some (compare x y)
    | _, _ => none

instance : RustDisplay F64 where
  display v :=
    match v with
    | F64.nan => "NaN"
    | F64.fin q => toString q

/-- Validator for the 'exclusive_maximum' schema check (lines 305-333). -/
structure ExclusiveMaximumValidator (T : Type) where
  exclusive_maximum : T

/-- `ExclusiveMaximumValidator::validate`: pushes one `ExclusiveMaximum`
error when `value >= exclusive_maximum`. -/
def ExclusiveMaximumValidator.validate {T : Type} [RustPOrd T] [RustDisplay T]
    (self : ExclusiveMaximumValidator T) (path : ValidationPath) (value : T) :
    List ValidationError :=
  if rustGe value self.exclusive_maximum then
    [{ category := ValidationErrorCategory.exclusiveMaximum
       path := path.render
       actual := RustDisplay.display value
       expected := RustDisplay.display self.exclusive_maximum }]
  else []

/-- Validator for the 'exclusive_minimum' schema check (lines 335-363). -/
structure ExclusiveMinimumValidator (T : Type) where
  exclusive_minimum : T

/-- `ExclusiveMinimumValidator::validate`: pushes one `ExclusiveMinimum`
error when `value <= exclusive_minimum`. -/
def ExclusiveMinimumValidator.validate {T : Type} [RustPOrd T] [RustDisplay T]
    (self : ExclusiveMinimumValidator T) (path : ValidationPath) (value : T) :
    List ValidationError :=
  if rustLe value self.exclusive_minimum then
    [{ category := ValidationErrorCategory.exclusiveMinimum
       path := path.render
       actual := RustDisplay.display value
       expected := RustDisplay.display self.exclusive_minimum }]
  else []

/-- Validator for the 'maximum' schema check (lines 365-393). -/
structure MaximumValidator (T : Type) where
  maximum : T

/-- `MaximumValidator::validate`: pushes one `Maximum` error when
`value > maximum`. -/
def MaximumValidator.validate {T : Type} [RustPOrd T] [RustDisplay T]
    (self : MaximumValidator T) (path : ValidationPath) (value : T) :
    List ValidationError :=
  if rustGt value self.maximum then
    [{ category := ValidationErrorCategory.maximum
       path := path.render
       actual := RustDisplay.display value
       expected := RustDisplay.display self.maximum }]
  else []

/-- Validator for the 'minimum' schema check (lines 395-423). -/
structure MinimumValidator (T : Type) where
  minimum : T

/-- `MinimumValidator::validate`: pushes one `Minimum` error when
`value < minimum`. -/
def MinimumValidator.validate {T : Type} [RustPOrd T] [RustDisplay T]
    (self : MinimumValidator T) (path : ValidationPath) (value : T) :
    List ValidationError :=
  if rustLt value self.minimum then
    [{ category := ValidationErrorCategory.minimum
       path := path.render
       actual := RustDisplay.display value
       expected := RustDisplay.display self.minimum }]
  else []

/-- Validator for the 'max_length' schema check (lines 425-447). Rust
`String::len()` is the UTF-8 byte count, embedded as `String.utf8ByteSize`. -/
structure MaxLengthValidator where
  max_length : Nat

/-- `MaxLengthValidator::validate`: pushes one `MaxLength` error when
`value.len() > max_length`. -/
def MaxLengthValidator.validate (self : MaxLengthValidator)
    (path : ValidationPath) (value : String) : List ValidationError :=
  if value.utf8ByteSize > self.max_length then
    [{ category := ValidationErrorCategory.maxLength
       path := path.render
       actual := toString value.utf8ByteSize
       expected := toString self.max_length }]
  else []

/-- Validator for the 'min_length' schema check (lines 449-471). -/
structure MinLengthValidator where
  min_length : Nat

/-- `MinLengthValidator::validate`: pushes one `MinLength` error when
`value.len() < min_length`. -/
def MinLengthValidator.validate (self : MinLengthValidator)
    (path : ValidationPath) (value : String) : List ValidationError :=
  if value.utf8ByteSize < self.min_length then
    [{ category := ValidationErrorCategory.minLength
       path := path.render
       actual := toString value.utf8ByteSize
       expected := toString self.min_length }]
  else []

/-- Validator for the 'pattern' schema check (lines 473-495). The compiled
`Regex` is modelled at its interface: the pattern source text (used for the
`expected` string via `Regex::to_string`) and the search-anywhere match
predicate `Regex::is_match`. -/
structure PatternValidator where
  pattern_src : String
  is_match : String → Bool

/-- `PatternValidator::validate`: pushes one `Pattern` error when the regex
does not match anywhere in the value. -/
def PatternValidator.validate (self : PatternValidator)
    (path : ValidationPath) (value : String) : List ValidationError :=
  if self.is_match value then []
  else
    [{ category := ValidationErrorCategory.pattern
       path := path.render
       actual := value
       expected := self.pattern_src }]

/-- Validator for the 'max_items' schema check (lines 497-523). The phantom
item-type parameter is irrelevant to behaviour and dropped; `validate` is
generic over the element type instead. -/
structure MaxItemsValidator where
  max_items : Nat

/-- `MaxItemsValidator::validate`: pushes one `MaxItems` error when
`value.len() > max_items`. -/
def MaxItemsValidator.validate {T : Type} (self : MaxItemsValidator)
    (path : ValidationPath) (value : List T) : List ValidationError :=
  if value.length > self.max_items then
    [{ category := ValidationErrorCategory.maxItems
       path := path.render
       actual := toString value.length
       expected := toString self.max_items }]
  else []

/-- Validator for the 'min_items' schema check (lines 525-551). -/
structure MinItemsValidator where
  min_items : Nat

/-- `MinItemsValidator::validate`: pushes one `MinItems` error when
`value.len() < min_items`. -/
def MinItemsValidator.validate {T : Type} (self : MinItemsValidator)
    (path : ValidationPath) (value : List T) : List ValidationError :=
  if value.length < self.min_items then
    [{ category := ValidationErrorCategory.minItems
       path := path.render
       actual := toString value.length
       expected := toString self.min_items }]
  else []

/-- Validator for the 'multiple_of' schema check (lines 553-588). -/
structure MultipleOfValidator (T : Type) where
  multiple_of : T

/-- `MultipleOfValidator::validate`: evaluates `value % multiple_of` (which
may panic — `none` result) and pushes one `MultipleOf` error when the
remainder differs from `T::default()`. -/
def MultipleOfValidator.validate {T : Type}
    [RustRem T] [RustPEq T] [RustDefault T] [RustDisplay T]
    (self : MultipleOfValidator T) (path : ValidationPath) (value : T) :
    Option (List ValidationError) :=
  match RustRem.rem value self.multiple_of with
  | none => none
  | some r =>
      if RustPEq.eqv r (RustDefault.defaultValue : T) then some []
      else
        some [{ category := ValidationErrorCategory.multipleOf
                path := path.render
                actual := RustDisplay.display value
                expected := RustDisplay.display self.multiple_of }]

/-- `OptionValidator` (lines 204-252): wraps an inner validator for `T` and
validates `Option<T>` — validating the inner value at the same path when
present, doing nothing when absent. The inner validator is embedded as its
`validate` function. -/
def OptionValidator.validate {T : Type}
    (inner : ValidationPath → T → List ValidationError)
    (path : ValidationPath) (value : Option T) : List ValidationError :=
  match value with
  | some v => inner path v
  | none => []

/-- The loop body of `VecValidator::validate` (lines 281-296), carrying the
running element index of `iter().enumerate()`. -/
def VecValidator.validateFrom {T : Type}
    (inner : ValidationPath → T → List ValidationError)
    (path : ValidationPath) : Nat → List T → List ValidationError
  | _, [] => []
  | index, i :: rest =>
      inner (ValidationPath.item path index) i ++
        VecValidator.validateFrom inner path (index + 1) rest

/-- `VecValidator::validate`: validates each element in order with the inner
validator at an `Item` path carrying the zero-based position. -/
def VecValidator.validate {T : Type}
    (inner : ValidationPath → T → List ValidationError)
    (path : ValidationPath) (value : List T) : List ValidationError :=
  VecValidator.validateFrom inner path 0 value

/-- `AlwaysValidValidator` (lines 172-178): never returns errors. It is the
default validator of every primitive scalar type. -/
def AlwaysValidValidator.validate {T : Type} (_path : ValidationPath)
    (_value : T) : List ValidationError := []

/-- `Validatable::validate_with` (lines 151-164): runs the given validator
against `Root` with a fresh accumulator and returns `Ok(())` when no error
was appended, `Err(errors)` otherwise. -/
def validate_with {T : Type} (value : T)
    (validator : ValidationPath → T → List ValidationError) :
    Except (List ValidationError) Unit :=
  let errors := validator ValidationPath.root value
  if errors.isEmpty then Except.ok () else Except.error errors

/-- A literal value appearing in a `#[schema(...)]`/`#[param(...)]`
constraint declaration (spec section 6: a numeric or string literal). -/
inductive Lit where
  | num (n : Int)
  | str (s : String)
deriving DecidableEq, Repr

/-- One `name = literal` pair inside a schema attribute (syn
`Meta::NameValue`; other `Meta` forms fall into the catch-all arm of
`create_checks_for_schema_attribute` and are ignored). -/
structure SchemaMeta where
  name : String
  value : Lit
deriving DecidableEq, Repr

/-- One field attribute (syn `Attribute`): its path identifier (`schema`,
`param`, or anything else) and its parsed argument list. -/
structure SchemaAttr where
  path : String
  metas : List SchemaMeta
deriving DecidableEq, Repr

/-- The declared field types the model covers: the integer scalars
(embedded as `Int`), `String`, `Option<T>` and `Vec<T>`. -/
inductive FieldType where
  | int
  | str
  | opt (inner : FieldType)
  | vec (inner : FieldType)
deriving DecidableEq, Repr

/-- `is_option` (gen crate lines 316-328): true iff the last path segment of
the declared type is `Option`. -/
def is_option : FieldType → Bool
  | FieldType.opt _ => true
  | _ => false

/-- Runtime values inhabiting the modelled field types. -/
inductive Value where
  | int (n : Int)
  | str (s : String)
  | opt (v : Option Value)
  | vec (items : List Value)

/-- The default validator a type resolves to through `Validatable`
(`validate_ex` dispatch): scalar types use `AlwaysValidValidator`,
`Option<T>` uses `OptionValidator` over `T`'s default, `Vec<T>` uses
`VecValidator` over `T`'s default. A value of the wrong shape cannot occur
in typechecked Rust; those cases return no errors. -/
def defaultValidate (ty : FieldType) : ValidationPath → Value → List ValidationError :=
  match ty with
  | FieldType.int => fun _ _ => []
  | FieldType.str => fun _ _ => []
  | FieldType.opt t => fun p v =>
      match v with
      | Value.opt inner => OptionValidator.validate (defaultValidate t) p inner
      | _ => []
  | FieldType.vec t => fun p v =>
      match v with
      | Value.vec items => VecValidator.validate (defaultValidate t) p items
      | _ => []

/-- A constraint check emitted by the derive macro: the constraint kind and
the literal the validator is constructed with. A `pattern` check stands for
the emitted expression `PatternValidator::new(regex::Regex::new(lit).unwrap())`. -/
inductive Check where
  | exclusive_maximum (lit : Lit)
  | exclusive_minimum (lit : Lit)
  | maximum (lit : Lit)
  | minimum (lit : Lit)
  | max_items (lit : Lit)
  | min_items (lit : Lit)
  | max_length (lit : Lit)
  | min_length (lit : Lit)
  | multiple_of (lit : Lit)
  | pattern (lit : Lit)
deriving DecidableEq, Repr

/-- The meta-to-validator dispatch of `create_checks_for_schema_attribute`
(gen crate lines 224-297): each recognized `name = value` meta yields a
check; anything else yields none (the `_ => None` arm, producing no code). -/
def meta_to_check (m : SchemaMeta) : Option Check :=
  if m.name == "exclusive_maximum" then some (Check.exclusive_maximum m.value)
  else if m.name == "exclusive_minimum" then some (Check.exclusive_minimum m.value)
  else if m.name == "maximum" then some (Check.maximum m.value)
  else if m.name == "minimum" then some (Check.minimum m.value)
  else if m.name == "max_items" then some (Check.max_items m.value)
  else if m.name == "min_items" then some (Check.min_items m.value)
  else if m.name == "max_length" then some (Check.max_length m.value)
  else if m.name == "min_length" then some (Check.min_length m.value)
  else if m.name == "multiple_of" then some (Check.multiple_of m.value)
  else if m.name == "pattern" then some (Check.pattern m.value)
  else none

/-- `create_checks_for_schema_attribute` (gen crate lines 219-314): the
checks emitted for one attribute, in the order the metas are declared. -/
def create_checks_for_schema_attribute (attr : SchemaAttr) : List Check :=
  attr.metas.filterMap meta_to_check

/-- Description of one field as the derive macro sees it: its declared type
and its attribute list. (The field name / positional index is passed to
`create_checks_for_field` separately, as the source passes the path tokens.) -/
structure FieldDesc where
  ty : FieldType
  attrs : List SchemaAttr
deriving DecidableEq, Repr

/-- The code `create_checks_for_field` (gen crate lines 193-217) emits for
one field: the path-segment name used for the child `Field` node, the field
type (whose default validator is invoked first via `validate_ex`), whether
declared checks are wrapped in `OptionValidator`, and the declared checks in
declaration order (attributes whose path is neither `schema` nor `param`
emit nothing). -/
structure FieldCode where
  pathName : String
  fieldTy : FieldType
  isOpt : Bool
  checks : List Check
deriving DecidableEq, Repr

/-- `create_checks_for_field`: computes `is_option` from the declared type
and collects the checks of every `schema`/`param` attribute in order. -/
def create_checks_for_field (f : FieldDesc) (pathName : String) : FieldCode :=
  { pathName := pathName
    fieldTy := f.ty
    isOpt := is_option f.ty
    checks :=
      (f.attrs.filter fun a => a.path == "schema" || a.path == "param").flatMap
        create_checks_for_schema_attribute }

/-- `generate_field_name` (gen crate lines 330-333): the synthesized binding
identifier for a positional field of an enum variant. -/
def generate_field_name (index : Nat) : String := "_" ++ toString index

/-- The field shapes of syn `Fields`: named, unnamed (positional), or unit. -/
inductive Fields where
  | named (fields : List (String × FieldDesc))
  | unnamed (fields : List FieldDesc)
  | unit
deriving DecidableEq, Repr

/-- The `Data::Struct` arm of `create_checks` (gen crate lines 54-116):
named fields use their declared identifier as the path name; unnamed fields
use the bare positional index rendered as a string
(`let field_index_str = index.to_string()`, line 90); a unit struct emits no
checks. -/
def create_checks_struct : Fields → List FieldCode
  | Fields.named fs => fs.map fun nf => create_checks_for_field nf.2 nf.1
  | Fields.unnamed fs =>
      fs.enum.map fun fi => create_checks_for_field fi.2 (toString fi.1)
  | Fields.unit => []

/-- One arm of the `Data::Enum` match (gen crate lines 117-186): within a
variant, a field's path name is `"<VariantName>.<fieldName>"` where the field
name is the declared identifier for named fields and
`generate_field_name(index)` for positional fields (lines 154-158). -/
def create_checks_variant (variantName : String) : Fields → List FieldCode
  | Fields.named fs =>
      fs.map fun nf => create_checks_for_field nf.2 (variantName ++ "." ++ nf.1)
  | Fields.unnamed fs =>
      fs.enum.map fun fi =>
        create_checks_for_field fi.2 (variantName ++ "." ++ generate_field_name fi.1)
  | Fields.unit => []

/-- Whether evaluating the emitted validator-construction expression panics:
only `PatternValidator::new(regex::Regex::new(s).unwrap())` can — it panics
exactly when the regex engine rejects the pattern source (`parses s = false`).
All other validator constructors merely store their literal. -/
def constructOk (parses : String → Bool) : Check → Bool
  | Check.pattern (Lit.str s) => parses s
  | _ => true

/-- Running one already-constructed check against the field value
(`<validator>.validate(&child_path, &field_expr, errors)`): dispatches to the
runtime validator embeddings. `matchFn pat` is the compiled regex's
`is_match`. A literal/value combination that the generated code would not
typecheck with is unreachable at runtime and contributes nothing. `none`
models a panic inside `validate` (the `%` of `multiple_of` on a zero
divisor). -/
def runCheckCore (matchFn : String → String → Bool) :
    Check → ValidationPath → Value → Option (List ValidationError)
  | Check.exclusive_maximum (Lit.num m), p, Value.int v =>
      some (ExclusiveMaximumValidator.validate { exclusive_maximum := m } p v)
  | Check.exclusive_minimum (Lit.num m), p, Value.int v =>
      some (ExclusiveMinimumValidator.validate { exclusive_minimum := m } p v)
  | Check.maximum (Lit.num m), p, Value.int v =>
      some (MaximumValidator.validate { maximum := m } p v)
  | Check.minimum (Lit.num m), p, Value.int v =>
      some (MinimumValidator.validate { minimum := m } p v)
  | Check.max_items (Lit.num m), p, Value.vec items =>
      some (MaxItemsValidator.validate { max_items := m.toNat } p items)
  | Check.min_items (Lit.num m), p, Value.vec items =>
      some (MinItemsValidator.validate { min_items := m.toNat } p items)
  | Check.max_length (Lit.num m), p, Value.str s =>
      some (MaxLengthValidator.validate { max_length := m.toNat } p s)
  | Check.min_length (Lit.num m), p, Value.str s =>
      some (MinLengthValidator.validate { min_length := m.toNat } p s)
  | Check.multiple_of (Lit.num m), p, Value.int v =>
      MultipleOfValidator.validate { multiple_of := m } p v
  | Check.pattern (Lit.str pat), p, Value.str s =>
      some (PatternValidator.validate { pattern_src := pat, is_match := matchFn pat } p s)
  | _, _, _ => some []

/-- Running one emitted check statement: the validator expression is
evaluated first (and its construction can panic regardless of the value —
the `Regex::new(..).unwrap()` sits inside `OptionValidator::new(..)`'s
argument); when the field is optional the constructed validator is wrapped
in `OptionValidator`, which skips an absent value. -/
def runCheck (parses : String → Bool) (matchFn : String → String → Bool)
    (isOpt : Bool) (c : Check) (p : ValidationPath) (v : Value) :
    Option (List ValidationError) :=
  if constructOk parses c then
    if isOpt then
      match v with
      | Value.opt none => some []
      | Value.opt (some x) => runCheckCore matchFn c p x
      | _ => some []
    else runCheckCore matchFn c p v
  else none

/-- Running the emitted check statements of one field in order, concatenating
appended errors; a panic in any statement aborts the pass. -/
def runChecks (parses : String → Bool) (matchFn : String → String → Bool)
    (isOpt : Bool) : List Check → ValidationPath → Value →
    Option (List ValidationError)
  | [], _, _ => some []
  | c :: rest, p, v => do
      let es ← runCheck parses matchFn isOpt c p v
      let more ← runChecks parses matchFn isOpt rest p v
      pure (es ++ more)

/-- Running the generated block for one field (gen crate lines 209-216):
bind the child path, invoke the field type's default validator first via
`validate_ex`, then run the declared checks in order against the same value
at the same child path. -/
def runFieldCode (parses : String → Bool) (matchFn : String → String → Bool)
    (fc : FieldCode) (path : ValidationPath) (v : Value) :
    Option (List ValidationError) :=
  let child := ValidationPath.field path fc.pathName
  do
    let rest ← runChecks parses matchFn fc.isOpt fc.checks child v
    pure (defaultValidate fc.fieldTy child v ++ rest)

/-- Running the generated blocks of a sequence of fields (the body of the
derived `Validator::validate`): fields in declaration order, each paired
with its runtime value. -/
def runFieldCodes (parses : String → Bool) (matchFn : String → String → Bool) :
    List (FieldCode × Value) → ValidationPath → Option (List ValidationError)
  | [], _ => some []
  | fcv :: rest, path => do
      let es ← runFieldCode parses matchFn fcv.1 path fcv.2
      let more ← runFieldCodes parses matchFn rest path
      pure (es ++ more)

/-- The declared type the emitted constraint validator is applied to: for an
optional field the `OptionValidator` wrapping makes the inner validator
target the wrapped type. -/
def innerFieldType (ty : FieldType) : FieldType :=
  match ty with
  | FieldType.opt t => t
  | t => t

/-- Whether the emitted check expression typechecks when rustc compiles the
generated code (the derive macro itself never inspects the literal): a bound
or `multiple_of` needs a numeric literal and a numeric field, the length
bounds need a non-negative integer literal and a string field, the item
bounds need a non-negative integer literal and a `Vec` field, and `pattern`
needs a string literal and a string field — `Regex::new` accepts every
string, so no pattern text is ever rejected at build time. -/
def checkTypechecks (ty : FieldType) : Check → Bool
  | Check.exclusive_maximum (Lit.num _) => innerFieldType ty == FieldType.int
  | Check.exclusive_minimum (Lit.num _) => innerFieldType ty == FieldType.int
  | Check.maximum (Lit.num _) => innerFieldType ty == FieldType.int
  | Check.minimum (Lit.num _) => innerFieldType ty == FieldType.int
  | Check.multiple_of (Lit.num _) => innerFieldType ty == FieldType.int
  | Check.max_items (Lit.num n) =>
      decide (0 ≤ n) && (match innerFieldType ty with
        | FieldType.vec _ => true
        | _ => false)
  | Check.min_items (Lit.num n) =>
      decide (0 ≤ n) && (match innerFieldType ty with
        | FieldType.vec _ => true
        | _ => false)
  | Check.max_length (Lit.num n) =>
      decide (0 ≤ n) && (innerFieldType ty == FieldType.str)
  | Check.min_length (Lit.num n) =>
      decide (0 ≤ n) && (innerFieldType ty == FieldType.str)
  | Check.pattern (Lit.str _) => innerFieldType ty == FieldType.str
  | _ => false

/-- Whether rustc accepts all generated checks of a field. -/
def fieldCodeTypechecks (fc : FieldCode) : Bool :=
  fc.checks.all (checkTypechecks fc.fieldTy)

/-! Helper lemmas about the integer comparison embedding. -/

theorem int_pcmp (a b : Int) :
    RustPOrd.pcmp a b =
      some (if a < b then Ordering.lt else if a = b then Ordering.eq else Ordering.gt) := rfl

theorem int_rustLt (a b : Int) : rustLt a b = true ↔ a < b := by
  unfold rustLt
  rw [int_pcmp]
  split_ifs with h1 h2 <;> simp <;> omega

theorem int_rustLe (a b : Int) : rustLe a b = true ↔ a ≤ b := by
  unfold rustLe
  rw [int_pcmp]
  split_ifs with h1 h2 <;> simp <;> omega

theorem int_rustGt (a b : Int) : rustGt a b = true ↔ b < a := by
  unfold rustGt
  rw [int_pcmp]
  split_ifs with h1 h2 <;> simp <;> omega

theorem int_rustGe (a b : Int) : rustGe a b = true ↔ b ≤ a := by
  unfold rustGe
  rw [int_pcmp]
  split_ifs with h1 h2 <;> simp <;> omega

/-- C5: rendering a `ValidationPath` satisfies the five clauses of the spec
invariant — `Root` renders empty, `Field` under `Root` renders the bare name,
`Item` under `Root` renders `[i]`, a `Field` under a non-root parent renders
the parent, a dot and the name, an `Item` under a non-root parent renders the
parent and `[i]` with no dot — and the two pinned examples `a.b` and `a[0]`
hold. -/
theorem validation_path_render_clauses :
    ValidationPath.render ValidationPath.root = "" ∧
    (∀ name, (ValidationPath.field ValidationPath.root name).render = name) ∧
    (∀ index, (ValidationPath.item ValidationPath.root index).render =
      "[" ++ toString index ++ "]") ∧
    (∀ p name, p ≠ ValidationPath.root →
      (ValidationPath.field p name).render = p.render ++ "." ++ name) ∧
    (∀ p index, p ≠ ValidationPath.root →
      (ValidationPath.item p index).render = p.render ++ "[" ++ toString index ++ "]") ∧
    (ValidationPath.field (ValidationPath.field ValidationPath.root "a") "b").render = "a.b" ∧
    (ValidationPath.item (ValidationPath.field ValidationPath.root "a") 0).render = "a[0]" := by
  refine ⟨rfl, fun _ => rfl, fun _ => rfl, ?_, ?_, by decide, by decide⟩
  · intro p name h
    cases p with
    | root => exact absurd rfl h
    | field q n => rfl
    | item q i => rfl
  · intro p index h
    cases p with
    | root => exact absurd rfl h
    | field q n => rfl
    | item q i => rfl

/-- Witness for C5: instantiating the non-root `Field` clause at the parent
`Item{Root, 1}` and computing. -/
theorem validation_path_render_clauses_witness :
    (ValidationPath.field (ValidationPath.item ValidationPath.root 1) "x").render = "[1].x" := by
  have h := validation_path_render_clauses.2.2.2.1
    (ValidationPath.item ValidationPath.root 1) "x" (by decide)
  rw [h]
  decide

/-- C6: over the integer instantiation, `MinimumValidator` errs exactly when
`value < minimum`, `MaximumValidator` exactly when `value > maximum`,
`ExclusiveMinimumValidator` exactly when `value <= minimum` and
`ExclusiveMaximumValidator` exactly when `value >= maximum`; in particular
Minimum(3) accepts 3 and rejects 2, Maximum(3) accepts 3 and rejects 4,
ExclusiveMinimum(3) rejects 3 and accepts 4, ExclusiveMaximum(3) rejects 3
and accepts 2. -/
theorem bound_validators_boundary_semantics (v m : Int) (p : ValidationPath) :
    (MinimumValidator.validate { minimum := m } p v ≠ [] ↔ v < m) ∧
    (MaximumValidator.validate { maximum := m } p v ≠ [] ↔ m < v) ∧
    (ExclusiveMinimumValidator.validate { exclusive_minimum := m } p v ≠ [] ↔ v ≤ m) ∧
    (ExclusiveMaximumValidator.validate { exclusive_maximum := m } p v ≠ [] ↔ m ≤ v) ∧
    MinimumValidator.validate { minimum := (3 : Int) } p 3 = [] ∧
    MinimumValidator.validate { minimum := (3 : Int) } p 2 ≠ [] ∧
    MaximumValidator.validate { maximum := (3 : Int) } p 3 = [] ∧
    MaximumValidator.validate { maximum := (3 : Int) } p 4 ≠ [] ∧
    ExclusiveMinimumValidator.validate { exclusive_minimum := (3 : Int) } p 3 ≠ [] ∧
    ExclusiveMinimumValidator.validate { exclusive_minimum := (3 : Int) } p 4 = [] ∧
    ExclusiveMaximumValidator.validate { exclusive_maximum := (3 : Int) } p 3 ≠ [] ∧
    ExclusiveMaximumValidator.validate { exclusive_maximum := (3 : Int) } p 2 = [] := by
  have hmin : ∀ (v m : Int),
      MinimumValidator.validate { minimum := m } p v ≠ [] ↔ v < m := by
    intro v m
    unfold MinimumValidator.validate
    rcases h : rustLt v m with _ | _
    · simp [← int_rustLt v m, h]
    · simp [← int_rustLt v m, h]
  have hmax : ∀ (v m : Int),
      MaximumValidator.validate { maximum := m } p v ≠ [] ↔ m < v := by
    intro v m
    unfold MaximumValidator.validate
    rcases h : rustGt v m with _ | _
    · simp [← int_rustGt v m, h]
    · simp [← int_rustGt v m, h]
  have hexmin : ∀ (v m : Int),
      ExclusiveMinimumValidator.validate { exclusive_minimum := m } p v ≠ [] ↔ v ≤ m := by
    intro v m
    unfold ExclusiveMinimumValidator.validate
    rcases h : rustLe v m with _ | _
    · simp [← int_rustLe v m, h]
    · simp [← int_rustLe v m, h]
  have hexmax : ∀ (v m : Int),
      ExclusiveMaximumValidator.validate { exclusive_maximum := m } p v ≠ [] ↔ m ≤ v := by
    intro v m
    unfold ExclusiveMaximumValidator.validate
    rcases h : rustGe v m with _ | _
    · simp [← int_rustGe v m, h]
    · simp [← int_rustGe v m, h]
  refine ⟨hmin v m, hmax v m, hexmin v m, hexmax v m, ?_, ?_, ?_, ?_, ?_, ?_, ?_, ?_⟩
  · rcases h : MinimumValidator.validate { minimum := (3 : Int) } p 3 with _ | _
    · rfl
    · exact absurd ((hmin 3 3).mp (by simp [h])) (by omega)
  · exact (hmin 2 3).mpr (by omega)
  · rcases h : MaximumValidator.validate { maximum := (3 : Int) } p 3 with _ | _
    · rfl
    · exact absurd ((hmax 3 3).mp (by simp [h])) (by omega)
  · exact (hmax 4 3).mpr (by omega)
  · exact (hexmin 3 3).mpr (by omega)
  · rcases h : ExclusiveMinimumValidator.validate { exclusive_minimum := (3 : Int) } p 4 with _ | _
    · rfl
    · exact absurd ((hexmin 4 3).mp (by simp [h])) (by omega)
  · exact (hexmax 3 3).mpr (by omega)
  · rcases h : ExclusiveMaximumValidator.validate { exclusive_maximum := (3 : Int) } p 2 with _ | _
    · rfl
    · exact absurd ((hexmax 2 3).mp (by simp [h])) (by omega)

/-- C7: `OptionValidator` appends nothing for an absent value and behaves
exactly as the inner validator at the same path for a present value; in
particular an `Option<i32>` constrained `minimum = 3` yields no error when
absent and exactly one Minimum error for the present value 2. -/
theorem option_validator_skip_and_delegate :
    (∀ (T : Type) (inner : ValidationPath → T → List ValidationError) (p : ValidationPath),
      OptionValidator.validate inner p (none : Option T) = []) ∧
    (∀ (T : Type) (inner : ValidationPath → T → List ValidationError)
      (p : ValidationPath) (x : T),
      OptionValidator.validate inner p (some x) = inner p x) ∧
    (∀ p : ValidationPath,
      OptionValidator.validate
        (fun q x => MinimumValidator.validate { minimum := (3 : Int) } q x) p
        (none : Option Int) = []) ∧
    (∀ p : ValidationPath,
      OptionValidator.validate
        (fun q x => MinimumValidator.validate { minimum := (3 : Int) } q x) p
        (some 2) =
      [{ category := ValidationErrorCategory.minimum, path := p.render,
         actual := "2", expected := "3" }]) := by
  refine ⟨fun _ _ _ => rfl, fun _ _ _ _ => rfl, fun _ => rfl, ?_⟩
  intro p
  show MinimumValidator.validate { minimum := (3 : Int) } p 2 = _
  unfold MinimumValidator.validate
  have h : rustLt (2 : Int) 3 = true := by decide
  rw [h]
  simp
  constructor <;> decide

/-- The enumerate loop of `VecValidator::validate`, related to `enumFrom`. -/
theorem vecValidateFrom_enumFrom {T : Type}
    (inner : ValidationPath → T → List ValidationError)
    (path : ValidationPath) (k : Nat) (l : List T) :
    VecValidator.validateFrom inner path k l =
      ((List.enumFrom k l).map fun pr =>
        inner (ValidationPath.item path pr.1) pr.2).flatten := by
  induction l generalizing k with
  | nil => rfl
  | cons x xs ih =>
      simp [VecValidator.validateFrom, List.enumFrom, ih]

/-- C8: the sequence validator visits the elements in order, validating
element `i` at an `Item` path with zero-based index `i`; its error list is
the in-order concatenation of the per-element error lists, and the empty
vector yields no error. -/
theorem vec_validator_visits_elements_in_order {T : Type}
    (inner : ValidationPath → T → List ValidationError)
    (path : ValidationPath) (l : List T) :
    VecValidator.validate inner path l =
      (l.enum.map fun pr => inner (ValidationPath.item path pr.1) pr.2).flatten ∧
    VecValidator.validate inner path ([] : List T) = [] := by
  constructor
  · rw [VecValidator.validate, vecValidateFrom_enumFrom]
    rfl
  · rfl

/-- C10: every floating-point bound validator accepts NaN for every limit —
`partial_cmp` involving NaN is `None`, so all four comparisons are false and
no error is appended. -/
theorem nan_accepted_by_all_bound_validators (m : F64) (p : ValidationPath) :
    MinimumValidator.validate { minimum := m } p F64.nan = [] ∧
    MaximumValidator.validate { maximum := m } p F64.nan = [] ∧
    ExclusiveMinimumValidator.validate { exclusive_minimum := m } p F64.nan = [] ∧
    ExclusiveMaximumValidator.validate { exclusive_maximum := m } p F64.nan = [] := by
  have hp : RustPOrd.pcmp F64.nan m = none := by cases m <;> rfl
  refine ⟨?_, ?_, ?_, ?_⟩
  · unfold MinimumValidator.validate rustLt
    rw [hp]
    simp
  · unfold MaximumValidator.validate rustGt
    rw [hp]
    simp
  · unfold ExclusiveMinimumValidator.validate rustLe
    rw [hp]
    simp
  · unfold ExclusiveMaximumValidator.validate rustGe
    rw [hp]
    simp

/-- C1 (amended): the bound, length, item-count and pattern validators are
total — their only effect is appending at most one error — and
`MultipleOfValidator` aborts exactly when the underlying `%` aborts: for the
signed-integer instantiation that is a zero divisor or the overflowing
`i64::MIN % -1`; for every other divisor/value pair it returns normally with
at most one appended error, and the generic validator body introduces no
abort of its own. -/
theorem validators_abort_only_on_multipleOf_rem
    (p : ValidationPath) (m v : Int) (n : Nat) (s psrc : String)
    (mf : String → Bool) (l : List Value) :
    (MinimumValidator.validate { minimum := m } p v).length ≤ 1 ∧
    (MaximumValidator.validate { maximum := m } p v).length ≤ 1 ∧
    (ExclusiveMinimumValidator.validate { exclusive_minimum := m } p v).length ≤ 1 ∧
    (ExclusiveMaximumValidator.validate { exclusive_maximum := m } p v).length ≤ 1 ∧
    (MinLengthValidator.validate { min_length := n } p s).length ≤ 1 ∧
    (MaxLengthValidator.validate { max_length := n } p s).length ≤ 1 ∧
    (MinItemsValidator.validate { min_items := n } p l).length ≤ 1 ∧
    (MaxItemsValidator.validate { max_items := n } p l).length ≤ 1 ∧
    (PatternValidator.validate { pattern_src := psrc, is_match := mf } p s).length ≤ 1 ∧
    (m ≠ 0 → ¬(v = -9223372036854775808 ∧ m = -1) →
      ∃ es, MultipleOfValidator.validate { multiple_of := m } p v = some es ∧
      es.length ≤ 1) ∧
    MultipleOfValidator.validate { multiple_of := (-1 : Int) } p
      (-9223372036854775808 : Int) = none ∧
    (∀ (T : Type) [RustRem T] [RustPEq T] [RustDefault T] [RustDisplay T]
      (d w : T) (q : ValidationPath),
      MultipleOfValidator.validate { multiple_of := d } q w = none ↔
        RustRem.rem w d = none) := by
  refine ⟨?_, ?_, ?_, ?_, ?_, ?_, ?_, ?_, ?_, ?_, ?_, ?_⟩
  · unfold MinimumValidator.validate
    split <;> simp
  · unfold MaximumValidator.validate
    split <;> simp
  · unfold ExclusiveMinimumValidator.validate
    split <;> simp
  · unfold ExclusiveMaximumValidator.validate
    split <;> simp
  · unfold MinLengthValidator.validate
    split <;> simp
  · unfold MaxLengthValidator.validate
    split <;> simp
  · unfold MinItemsValidator.validate
    split <;> simp
  · unfold MaxItemsValidator.validate
    split <;> simp
  · unfold PatternValidator.validate
    split <;> simp
  · intro hm hov
    have hrem : (RustRem.rem v m : Option Int) =
        if m = 0 ∨ (v = -9223372036854775808 ∧ m = -1) then none
        else some (Int.tmod v m) := rfl
    simp only [MultipleOfValidator.validate, hrem, if_neg (not_or.mpr ⟨hm, hov⟩)]
    split_ifs with hq
    · exact ⟨[], rfl, by simp⟩
    · exact ⟨_, rfl, by simp⟩
  · rfl
  · intro T _ _ _ _ d w q
    rcases h : (RustRem.rem w d : Option T) with _ | r
    · simp [MultipleOfValidator.validate, h]
    · simp only [MultipleOfValidator.validate, h]
      split <;> simp

/-- Witness for C1's amended theorem: a nonzero divisor makes
`MultipleOfValidator` return normally. -/
theorem validators_abort_only_on_multipleOf_rem_witness :
    (MultipleOfValidator.validate { multiple_of := (2 : Int) }
      ValidationPath.root (3 : Int)).isSome = true := by
  obtain ⟨es, hes, -⟩ :=
    (validators_abort_only_on_multipleOf_rem ValidationPath.root 2 3 0 "" ""
      (fun _ => true) []).2.2.2.2.2.2.2.2.2.1 (by decide) (by decide)
  rw [hes]
  rfl

/-- Counterexample for C1 as stated: `MultipleOfValidator` with a divisor
equal to the integer zero aborts (the Rust `%` panics) instead of appending
an error. -/
theorem multipleOf_zero_divisor_aborts :
    MultipleOfValidator.validate { multiple_of := (0 : Int) }
      ValidationPath.root (1 : Int) = none := rfl

/-- C2 (amended): a bound, length, item-count or multiple-of constraint given
a string literal is rejected when the generated code is typechecked (build
time); the text of a pattern constraint, however, is never inspected at
derivation or build time — it always typechecks against a string field — and
at runtime the emitted `Regex::new(..).unwrap()` aborts the validate call
whenever the engine rejects the pattern, instead of producing a
`ValidationError`. -/
theorem wrong_typed_bounds_fail_build_unparsable_pattern_aborts_runtime
    (s : String) (ty : FieldType) (parses : String → Bool)
    (matchFn : String → String → Bool) (p : ValidationPath) (v : Value)
    (isOpt : Bool) :
    (checkTypechecks ty (Check.maximum (Lit.str s)) = false ∧
     checkTypechecks ty (Check.minimum (Lit.str s)) = false ∧
     checkTypechecks ty (Check.exclusive_maximum (Lit.str s)) = false ∧
     checkTypechecks ty (Check.exclusive_minimum (Lit.str s)) = false ∧
     checkTypechecks ty (Check.multiple_of (Lit.str s)) = false ∧
     checkTypechecks ty (Check.max_items (Lit.str s)) = false ∧
     checkTypechecks ty (Check.min_items (Lit.str s)) = false ∧
     checkTypechecks ty (Check.max_length (Lit.str s)) = false ∧
     checkTypechecks ty (Check.min_length (Lit.str s)) = false) ∧
    checkTypechecks FieldType.str (Check.pattern (Lit.str s)) = true ∧
    (parses s = false →
      runCheck parses matchFn isOpt (Check.pattern (Lit.str s)) p v = none) := by
  refine ⟨⟨rfl, rfl, rfl, rfl, rfl, rfl, rfl, rfl, rfl⟩, rfl, ?_⟩
  intro h
  simp only [runCheck, constructOk, h]
  simp

/-- Witness for C2's amended theorem: a concrete engine that rejects the
pattern text `(` makes the emitted pattern check abort at runtime. -/
theorem wrong_typed_bounds_fail_build_unparsable_pattern_aborts_runtime_witness :
    runCheck (fun t => !(t == "(")) (fun _ _ => true) false
      (Check.pattern (Lit.str "(")) ValidationPath.root (Value.str "a") = none :=
  (wrong_typed_bounds_fail_build_unparsable_pattern_aborts_runtime "(" FieldType.str
    (fun t => !(t == "(")) (fun _ _ => true) ValidationPath.root (Value.str "a")
    false).2.2 (by decide)

/-- Counterexample for C2 as stated: a field whose pattern text the regex
engine rejects nevertheless passes derivation and the build — every generated
check typechecks — and the runtime validate call aborts on it. -/
theorem unparsable_pattern_passes_build_aborts_runtime :
    fieldCodeTypechecks (create_checks_for_field
      { ty := FieldType.str,
        attrs := [{ path := "schema", metas := [{ name := "pattern", value := Lit.str "(" }] }] }
      "hex") = true ∧
    runFieldCode (fun t => !(t == "(")) (fun _ _ => true)
      (create_checks_for_field
        { ty := FieldType.str,
          attrs := [{ path := "schema", metas := [{ name := "pattern", value := Lit.str "(" }] }] }
        "hex")
      ValidationPath.root (Value.str "ab") = none := by
  constructor
  · rfl
  · rfl

/-- Decomposition of a non-aborting `runChecks` run: the appended errors are
the in-order concatenation of what each emitted check appends. -/
theorem runChecks_parts (parses : String → Bool) (matchFn : String → String → Bool)
    (isOpt : Bool) (cs : List Check) :
    ∀ (p : ValidationPath) (v : Value) (res : List ValidationError),
      runChecks parses matchFn isOpt cs p v = some res →
      ∃ parts : List (List ValidationError),
        res = parts.flatten ∧ parts.length = cs.length ∧
        ∀ i (hi : i < cs.length) (hp : i < parts.length),
          runCheck parses matchFn isOpt (cs.get ⟨i, hi⟩) p v = some (parts.get ⟨i, hp⟩) := by
  induction cs with
  | nil =>
      intro p v res h
      cases h
      exact ⟨[], rfl, rfl, fun i hi hp => absurd hi (by simp)⟩
  | cons c rest ih =>
      intro p v res h
      rcases hc : runCheck parses matchFn isOpt c p v with _ | e
      · rw [runChecks, hc] at h
        cases h
      · rw [runChecks, hc] at h
        rcases hr : runChecks parses matchFn isOpt rest p v with _ | more
        · rw [hr] at h
          cases h
        · rw [hr] at h
          obtain ⟨parts, hflat, hlen, hidx⟩ := ih p v more hr
          cases h
          refine ⟨e :: parts, by simp [hflat], by simp [hlen], ?_⟩
          intro i hi hp
          cases i with
          | zero => simpa using hc
          | succ j =>
              simpa using hidx j (by simpa using hi) (by simpa using hp)

/-- C3: for every field, the generated procedure computes `is_option` from
the declared type, and a non-aborting run appends first exactly the errors of
the field type's own default validator at the child path, followed by the
errors of the declared checks, each run in declaration order against the same
value at the same child path; a check wrapped for an optional field appends
nothing when the value is absent. -/
theorem derived_field_checks_default_first_then_declared
    (parses : String → Bool) (matchFn : String → String → Bool)
    (f : FieldDesc) (name : String) (path : ValidationPath) (v : Value)
    (es : List ValidationError) :
    (create_checks_for_field f name).isOpt = is_option f.ty ∧
    (runFieldCode parses matchFn (create_checks_for_field f name) path v = some es →
      ∃ parts : List (List ValidationError),
        es = defaultValidate f.ty (ValidationPath.field path name) v ++ parts.flatten ∧
        parts.length = (create_checks_for_field f name).checks.length ∧
        ∀ i (hi : i < (create_checks_for_field f name).checks.length)
          (hp : i < parts.length),
          runCheck parses matchFn (is_option f.ty)
            ((create_checks_for_field f name).checks.get ⟨i, hi⟩)
            (ValidationPath.field path name) v = some (parts.get ⟨i, hp⟩)) ∧
    (∀ c, constructOk parses c = true →
      runCheck parses matchFn true c path (Value.opt none) = some []) := by
  refine ⟨rfl, ?_, ?_⟩
  · intro h
    rcases hr : runChecks parses matchFn (create_checks_for_field f name).isOpt
        (create_checks_for_field f name).checks
        (ValidationPath.field path ((create_checks_for_field f name).pathName)) v
      with _ | rest
    · rw [runFieldCode] at h
      rw [hr] at h
      cases h
    · rw [runFieldCode] at h
      rw [hr] at h
      cases h
      obtain ⟨parts, hflat, hlen, hidx⟩ :=
        runChecks_parts parses matchFn (create_checks_for_field f name).isOpt
          (create_checks_for_field f name).checks
          (ValidationPath.field path ((create_checks_for_field f name).pathName)) v rest hr
      exact ⟨parts, by rw [hflat]; rfl, hlen, hidx⟩
  · intro c hc
    simp [runCheck, hc]

/-- Witness for C3: an optional field derives with the option flag set, and a
wrapped check appends nothing for an absent value. -/
theorem derived_field_checks_default_first_then_declared_witness :
    (create_checks_for_field { ty := FieldType.opt FieldType.int, attrs := [] } "0").isOpt
      = true ∧
    runCheck (fun _ => true) (fun _ _ => true) true (Check.minimum (Lit.num 3))
      ValidationPath.root (Value.opt none) = some [] := by
  constructor
  · exact (derived_field_checks_default_first_then_declared (fun _ => true)
      (fun _ _ => true) { ty := FieldType.opt FieldType.int, attrs := [] } "0"
      ValidationPath.root (Value.opt none) []).1
  · exact (derived_field_checks_default_first_then_declared (fun _ => true)
      (fun _ _ => true) { ty := FieldType.opt FieldType.int, attrs := [] } "0"
      ValidationPath.root (Value.opt none) []).2.2 (Check.minimum (Lit.num 3)) rfl

/-- Path names of a run of fields derived positionally, as a function of the
name synthesis `g`. -/
theorem enum_pathName_map (l : List FieldDesc) (g : Nat → String) :
    ((l.enum.map fun fi => create_checks_for_field fi.2 (g fi.1)).map
      FieldCode.pathName) = (List.range l.length).map g := by
  rw [List.map_map]
  rw [show (FieldCode.pathName ∘ fun fi : Nat × FieldDesc =>
      create_checks_for_field fi.2 (g fi.1)) = (fun fi : Nat × FieldDesc => g fi.1) from rfl]
  rw [show (fun fi : Nat × FieldDesc => g fi.1) = g ∘ Prod.fst from rfl]
  rw [← List.map_map, List.enum_map_fst]

/-- C4 (amended): positional record fields are reported under the bare
positional index (`"0"`, `"1"`, ...), named record fields under their declared
name, and union-variant fields under `"<VariantName>.<fieldName>"` where the
field name is the declared one for named fields and the synthesized
`"_0"`, `"_1"`, ... for positional fields. -/
theorem derived_field_path_names
    (fs : List FieldDesc) (nfs : List (String × FieldDesc)) (vName : String) (i : Nat) :
    (create_checks_struct (Fields.unnamed fs)).map FieldCode.pathName =
      (List.range fs.length).map toString ∧
    (create_checks_struct (Fields.named nfs)).map FieldCode.pathName =
      nfs.map (fun nf => nf.1) ∧
    (create_checks_variant vName (Fields.unnamed fs)).map FieldCode.pathName =
      (List.range fs.length).map (fun j => vName ++ "." ++ generate_field_name j) ∧
    (create_checks_variant vName (Fields.named nfs)).map FieldCode.pathName =
      nfs.map (fun nf => vName ++ "." ++ nf.1) ∧
    generate_field_name i = "_" ++ toString i := by
  refine ⟨?_, ?_, ?_, ?_, rfl⟩
  · exact enum_pathName_map fs toString
  · rw [create_checks_struct, List.map_map]
    rfl
  · exact enum_pathName_map fs (fun j => vName ++ "." ++ generate_field_name j)
  · rw [create_checks_variant, List.map_map]
    rfl

/-- Counterexample for C4 as stated: the positional record field of the
`UnnamedOption` shape is reported at path `"0"`, not `"_0"` — the synthesized
`"_i"` form is used only inside union variants. -/
theorem positional_struct_field_path_is_bare_index :
    runFieldCodes (fun _ => true) (fun _ _ => true)
      ((create_checks_struct (Fields.unnamed
        [{ ty := FieldType.opt FieldType.int,
           attrs := [{ path := "schema",
                       metas := [{ name := "minimum", value := Lit.num 3 }] }] }])).zip
        [Value.opt (some (Value.int 2))])
      ValidationPath.root =
      some [{ category := ValidationErrorCategory.minimum, path := "0",
              actual := "2", expected := "3" }] ∧
    ("0" : String) ≠ "_0" := by
  exact ⟨rfl, by decide⟩

/-- A non-aborting run of a field sequence where every field appends exactly
one error appends exactly one error per field. -/
theorem runFieldCodes_exhaustive (parses : String → Bool)
    (matchFn : String → String → Bool) (pairs : List (FieldCode × Value)) :
    ∀ (path : ValidationPath) (es : List ValidationError),
      runFieldCodes parses matchFn pairs path = some es →
      (∀ pr ∈ pairs, ∃ e, runFieldCode parses matchFn pr.1 path pr.2 = some [e]) →
      es.length = pairs.length := by
  induction pairs with
  | nil =>
      intro path es h _
      cases h
      rfl
  | cons pr rest ih =>
      intro path es h hall
      obtain ⟨e, he⟩ := hall pr (by simp)
      rw [runFieldCodes, he] at h
      rcases hr : runFieldCodes parses matchFn rest path with _ | more
      · rw [hr] at h
        cases h
      · rw [hr] at h
        cases h
        have := ih path more hr (fun q hq => hall q (by simp [hq]))
        simp [this]

/-- C9: `validate_with` returns `Ok(())` exactly when the validator appends
no error against `Root`, and otherwise returns `Err` carrying exactly the
accumulated list in append order; a derived record run in which each of the N
fields independently appends one error yields exactly N errors. -/
theorem validate_with_returns_complete_error_list {T : Type}
    (value : T) (V : ValidationPath → T → List ValidationError)
    (parses : String → Bool) (matchFn : String → String → Bool)
    (pairs : List (FieldCode × Value)) (path : ValidationPath)
    (es : List ValidationError) :
    (validate_with value V = Except.ok () ↔ V ValidationPath.root value = []) ∧
    (V ValidationPath.root value ≠ [] →
      validate_with value V = Except.error (V ValidationPath.root value)) ∧
    (runFieldCodes parses matchFn pairs path = some es →
      (∀ pr ∈ pairs, ∃ e, runFieldCode parses matchFn pr.1 path pr.2 = some [e]) →
      es.length = pairs.length) := by
  refine ⟨?_, ?_, fun h hall => runFieldCodes_exhaustive parses matchFn pairs path es h hall⟩
  · unfold validate_with
    rcases hV : V ValidationPath.root value with _ | ⟨e, rest⟩ <;> simp [hV]
  · intro hne
    unfold validate_with
    rcases hV : V ValidationPath.root value with _ | ⟨e, rest⟩
    · exact absurd hV hne
    · simp

/-- Witness for C9: a failing value yields `Err` with the exact error, and a
concrete two-field record with two independent violations yields exactly two
errors. -/
theorem validate_with_returns_complete_error_list_witness :
    validate_with (2 : Int)
      (fun p x => MinimumValidator.validate { minimum := (5 : Int) } p x) =
      Except.error [{ category := ValidationErrorCategory.minimum, path := "",
                      actual := "2", expected := "5" }] ∧
    ([{ category := ValidationErrorCategory.minimum, path := "a",
        actual := "0", expected := "1" },
      { category := ValidationErrorCategory.minimum, path := "b",
        actual := "0", expected := "1" }] : List ValidationError).length = 2 := by
  constructor
  · have h := (validate_with_returns_complete_error_list (2 : Int)
      (fun p x => MinimumValidator.validate { minimum := (5 : Int) } p x)
      (fun _ => true) (fun _ _ => true) [] ValidationPath.root []).2.1 (by decide)
    rw [h]
    rfl
  · exact (validate_with_returns_complete_error_list (2 : Int)
      (fun p x => MinimumValidator.validate { minimum := (5 : Int) } p x)
      (fun _ => true) (fun _ _ => true)
      ((create_checks_struct (Fields.named
        [("a", { ty := FieldType.int,
                 attrs := [{ path := "schema",
                             metas := [{ name := "minimum", value := Lit.num 1 }] }] }),
         ("b", { ty := FieldType.int,
                 attrs := [{ path := "schema",
                             metas := [{ name := "minimum", value := Lit.num 1 }] }] })])).zip
        [Value.int 0, Value.int 0])
      ValidationPath.root
      [{ category := ValidationErrorCategory.minimum, path := "a",
         actual := "0", expected := "1" },
       { category := ValidationErrorCategory.minimum, path := "b",
         actual := "0", expected := "1" }]).2.2 rfl
      (by
        intro pr hpr
        fin_cases hpr <;> exact ⟨_, rfl⟩)
